import Mathlib

/-!
Verification development for the fatura-parser repository.

The definitions below are a shallow embedding of the Python sources:
  - fatura_parser/core.py        (data model and YNAB exporter)
  - fatura_parser/parsers/itau.py (statement parser)

Python strings are modelled as lists of characters; Decimal values are
modelled exactly as a pair of an integer mantissa and a decimal scale
(the context precision of 28 significant digits is not modelled, since
every amount handled by the program is far below it); datetime.date is
modelled as a validated year/month/day triple.  The regular
expressions used by the parser are embedded as hand-written matchers on
character lists that follow the search and backtracking order of the re
module; the character classes are modelled over the character ranges the
patterns name, with unicode case mapping restricted to the ASCII letters
plus the accented letters that appear in the vocabulary of the source
file.
-/

/-- ASCII decimal digit test, the model of the regex class of digits. -/
def isDig (c : Char) : Bool := '0' ≤ c && c ≤ '9'

/-- Numeric value of an ASCII digit character. -/
def digVal (c : Char) : Nat := c.toNat - '0'.toNat

/-- Whitespace test: the model of str.strip and of the regex whitespace
class, restricted to the ASCII whitespace characters. -/
def isWS (c : Char) : Bool :=
  c == ' ' || c == '\t' || c == '\n' || c == '\r' || c == '\x0b' || c == '\x0c'

/-- Model of str.lower restricted to the ASCII letters and to the accented
uppercase letters that occur in the vocabulary of itau.py. -/
def lowChar (c : Char) : Char :=
  if 'A' ≤ c && c ≤ 'Z' then Char.ofNat (c.toNat + 32)
  else if c == 'Á' then 'á' else if c == 'Â' then 'â' else if c == 'Ã' then 'ã'
  else if c == 'À' then 'à' else if c == 'Ç' then 'ç' else if c == 'É' then 'é'
  else if c == 'Ê' then 'ê' else if c == 'Í' then 'í' else if c == 'Ó' then 'ó'
  else if c == 'Ô' then 'ô' else if c == 'Õ' then 'õ' else if c == 'Ú' then 'ú'
  else if c == 'Ü' then 'ü' else c

/-- Model of str.upper restricted to the ASCII letters and to the accented
lowercase letters that occur in the vocabulary of itau.py. -/
def upChar (c : Char) : Char :=
  if 'a' ≤ c && c ≤ 'z' then Char.ofNat (c.toNat - 32)
  else if c == 'á' then 'Á' else if c == 'â' then 'Â' else if c == 'ã' then 'Ã'
  else if c == 'à' then 'À' else if c == 'ç' then 'Ç' else if c == 'é' then 'É'
  else if c == 'ê' then 'Ê' else if c == 'í' then 'Í' else if c == 'ó' then 'Ó'
  else if c == 'ô' then 'Ô' else if c == 'õ' then 'Õ' else if c == 'ú' then 'Ú'
  else if c == 'ü' then 'Ü' else c

/-- Does the first list start with the second one. -/
def beginsWith : List Char → List Char → Bool
  | _, [] => true
  | [], _ :: _ => false
  | c :: cs, d :: ds => c == d && beginsWith cs ds

/-- Substring containment, the model of the Python operator in on strings:
hasSub needle hay is true when needle occurs contiguously in hay. -/
def hasSub (needle : List Char) : List Char → Bool
  | [] => beginsWith [] needle
  | c :: t => beginsWith (c :: t) needle || hasSub needle t

/-- Containment of a string literal in a character list. -/
def hasStr (hay : List Char) (needle : String) : Bool := hasSub needle.data hay

/-- Model of str.strip with no argument. -/
def stripL (l : List Char) : List Char :=
  ((l.dropWhile isWS).reverse.dropWhile isWS).reverse

/-- Model of str.split with a one-character separator (always returns at
least one piece, like the Python method). -/
def splitOnChar (sep : Char) : List Char → List (List Char)
  | [] => [[]]
  | c :: t =>
    let r := splitOnChar sep t
    if c == sep then [] :: r
    else match r with
      | h :: t2 => (c :: h) :: t2
      | [] => [[c]]

/-- Numeric value of a list of ASCII digits, most significant first. -/
def natOfDigits (l : List Char) : Nat := l.foldl (fun acc c => 10 * acc + digVal c) 0

/-- Model of the Python int constructor on a string: surrounding
whitespace is stripped, an optional sign is allowed, and at least one
digit is required (restricted to ASCII digits).  None models ValueError. -/
def pyIntOfChars (l : List Char) : Option Int :=
  match stripL l with
  | '+' :: ds => if ds ≠ [] && ds.all isDig then some (natOfDigits ds : Int) else none
  | '-' :: ds => if ds ≠ [] && ds.all isDig then some (-(natOfDigits ds : Int)) else none
  | ds => if ds ≠ [] && ds.all isDig then some (natOfDigits ds : Int) else none

/-- Exact model of a decimal.Decimal value: mant together with scale
denotes mant divided by ten to the scale (a negative scale denotes a
positive decimal exponent). -/
structure Dec where
  mant : Int
  scale : Int
  deriving DecidableEq

/-- The Decimal zero produced by Decimal of the string 0. -/
def Dec.zero : Dec := ⟨0, 0⟩

/-- Rational value denoted by a Dec. -/
def Dec.toRat (d : Dec) : ℚ := (d.mant : ℚ) * (10 : ℚ) ^ (-d.scale)

/-- Exact addition of Decimal values: operands are aligned to the larger
scale, as the decimal module does. -/
def Dec.add (a b : Dec) : Dec :=
  let s := max a.scale b.scale
  ⟨a.mant * (10 : Int) ^ (s - a.scale).toNat + b.mant * (10 : Int) ^ (s - b.scale).toNat, s⟩

/-- Model of the comparison of a Decimal with zero (the sign of the
mantissa decides, since powers of ten are positive). -/
def Dec.isPos (d : Dec) : Bool := 0 < d.mant

/-- Model of the comparison of a Decimal with zero from below. -/
def Dec.isNeg (d : Dec) : Bool := d.mant < 0

/-- Decimal digits of a natural number, most significant first. -/
def natDigits (n : Nat) : List Char :=
  (Nat.toDigits 10 n)

/-- Decimal rendering of a natural number. -/
def natStr (n : Nat) : String := String.mk (natDigits n)

/-- Model of a datetime.date value. -/
structure PyDate where
  year : Nat
  month : Nat
  day : Nat
  deriving DecidableEq

/-- Gregorian leap-year rule used by datetime. -/
def isLeap (y : Nat) : Bool := y % 4 == 0 && (y % 100 != 0 || y % 400 == 0)

/-- Length of a month as datetime checks it. -/
def daysInMonth (y m : Nat) : Nat :=
  if m == 2 then (if isLeap y then 29 else 28)
  else if m == 4 || m == 6 || m == 9 || m == 11 then 30
  else 31

/-- Model of the datetime.date constructor: a validated triple, where
None models the ValueError raised on an out-of-range component. -/
def mkDate (y m d : Nat) : Option PyDate :=
  if 1 ≤ y && y ≤ 9999 && 1 ≤ m && m ≤ 12 && 1 ≤ d && d ≤ daysInMonth y m
  then some ⟨y, m, d⟩ else none

/-- Model of a datetime.datetime value, to the precision the exporter
prints (the export timestamp format keeps year through minute). -/
structure PyDateTime where
  date : PyDate
  hour : Nat
  minute : Nat
  deriving DecidableEq

/-- Two-digit zero-padded rendering, as the strftime directives for day,
month, hour and minute produce. -/
def pad2 (n : Nat) : String := if n < 10 then "0" ++ natStr n else natStr n

/-- Model of strftime with the day/month/year layout used for YNAB rows
(the year directive prints the year unpadded on glibc; every year in
this development has four digits). -/
def fmtDDMMYYYY (d : PyDate) : String :=
  pad2 d.day ++ "/" ++ pad2 d.month ++ "/" ++ natStr d.year

/-- Model of the export-timestamp strftime layout, year-month-day then
hour and minute. -/
def fmtExpStamp (t : PyDateTime) : String :=
  natStr t.date.year ++ "-" ++ pad2 t.date.month ++ "-" ++ pad2 t.date.day
    ++ " " ++ pad2 t.hour ++ ":" ++ pad2 t.minute

/-- Result of constructing a decimal.Decimal from a string: a finite
value, an infinity, or a (signalling) NaN. -/
inductive PyDecimal where
  | fin : Dec → PyDecimal
  | inf : Bool → PyDecimal
  | nan : PyDecimal
  | snan : PyDecimal
  deriving DecidableEq

/-- Case-insensitive equality of a character list with an ASCII word. -/
def ciEq (l : List Char) (w : String) : Bool :=
  beginsWith (l.map lowChar) w.data && l.length == w.data.length

/-- Exponent part of the decimal numeric grammar: an e or E indicator,
an optional sign and at least one digit, consuming the whole remainder. -/
def decExpPart : List Char → Option Int
  | [] => some 0
  | e :: rest =>
    if e == 'e' || e == 'E' then
      match rest with
      | '+' :: ds => if ds ≠ [] && ds.all isDig then some (natOfDigits ds : Int) else none
      | '-' :: ds => if ds ≠ [] && ds.all isDig then some (-(natOfDigits ds : Int)) else none
      | ds => if ds ≠ [] && ds.all isDig then some (natOfDigits ds : Int) else none
    else none

/-- Unsigned part of the decimal numeric grammar: integer digits, an
optional point with fraction digits, then an optional exponent part;
at least one digit must be present. -/
def decUnsigned (l : List Char) : Option (Nat × Int) :=
  let intPart := l.takeWhile isDig
  let rest := l.drop intPart.length
  match rest with
  | '.' :: r2 =>
    let frac := r2.takeWhile isDig
    if intPart.length + frac.length == 0 then none
    else
      match decExpPart (r2.drop frac.length) with
      | some e => some (natOfDigits (intPart ++ frac), (frac.length : Int) - e)
      | none => none
  | r =>
    if intPart == [] then none
    else
      match decExpPart r with
      | some e => some (natOfDigits intPart, -e)
      | none => none

/-- The decimal numeric-string grammar of the decimal module, after the
documented preprocessing (surrounding whitespace stripped, underscores
removed): an optional sign followed by a numeric value, an infinity or
a NaN form; the word forms are case-insensitive.  None models the
InvalidOperation raised on any other string. -/
def pyDecimalOfChars (raw : List Char) : Option PyDecimal :=
  let l := (stripL raw).filter (fun c => c != '_')
  let signed : Bool × List Char :=
    match l with
    | '+' :: t => (false, t)
    | '-' :: t => (true, t)
    | t => (false, t)
  let neg := signed.1
  let body := signed.2
  if ciEq body "inf" || ciEq body "infinity" then some (.inf neg)
  else if beginsWith (body.map lowChar) "nan".data && (body.drop 3).all isDig && body.length ≥ 3 then
    some .nan
  else if beginsWith (body.map lowChar) "snan".data && (body.drop 4).all isDig && body.length ≥ 4 then
    some .snan
  else
    match decUnsigned body with
    | some (coeff, scale) =>
      some (.fin ⟨if neg then -(coeff : Int) else (coeff : Int), scale⟩)
    | none => none

/-- The cleaning pipeline of _parse_brl_amount (itau.py:97): drop every
space, drop every period, turn each comma into a period. -/
def cleanAmount (s : String) : List Char :=
  (((s.data.filter (fun c => c != ' ')).filter (fun c => c != '.')).map
    (fun c => if c == ',' then '.' else c))

/-- Embedding of ItauPDFParser._parse_brl_amount (itau.py:88-101): clean
the token, then construct a Decimal; the InvalidOperation handler
returns Decimal zero. -/
def parseBrlAmount (s : String) : PyDecimal :=
  match pyDecimalOfChars (cleanAmount s) with
  | some v => v
  | none => .fin Dec.zero

/-- Digit characters of the absolute mantissa of a Dec. -/
def Dec.coeffDigits (d : Dec) : List Char := natDigits d.mant.natAbs

/-- Model of str on a Decimal value (the to-scientific-string rules of
the decimal specification): positional form when the exponent is at
most zero and the adjusted exponent is at least minus six, scientific
form otherwise. -/
def decStr (d : Dec) : String :=
  let sign : String := if d.mant < 0 then "-" else ""
  let digs := d.coeffDigits
  let e : Int := -d.scale
  let adjusted : Int := e + (digs.length : Int) - 1
  if e ≤ 0 && adjusted ≥ -6 then
    if d.scale == 0 then sign ++ String.mk digs
    else if (digs.length : Int) > d.scale then
      sign ++ String.mk (digs.take (digs.length - d.scale.toNat)) ++ "."
        ++ String.mk (digs.drop (digs.length - d.scale.toNat))
    else
      sign ++ "0." ++ String.mk (List.replicate (d.scale.toNat - digs.length) '0')
        ++ String.mk digs
  else
    let head := String.mk (digs.take 1)
    let tail := digs.drop 1
    let expStr := (if adjusted < 0 then "E-" else "E+") ++ natStr adjusted.natAbs
    if tail == [] then sign ++ head ++ expStr
    else sign ++ head ++ "." ++ String.mk tail ++ expStr

/-- Round a nonnegative integer quotient to nearest with ties to even,
the default rounding of decimal format strings. -/
def roundHalfEven (m p : Nat) : Nat :=
  let q := m / p
  let r := m % p
  if 2 * r > p then q + 1
  else if 2 * r < p then q
  else if q % 2 == 1 then q + 1 else q

/-- Embedding of YNABExporter._format_amount (core.py:335-337): the
absolute value printed with exactly two decimal places (fixed-point
format of a Decimal, rounding half to even when the scale exceeds two). -/
def formatAmount (d : Dec) : String :=
  let m := d.mant.natAbs
  let cents :=
    if d.scale ≤ 2 then m * 10 ^ (2 - d.scale).toNat
    else roundHalfEven m (10 ^ (d.scale - 2).toNat)
  natStr (cents / 100) ++ "." ++ pad2 (cents % 100)

/-- Embedding of ItauPDFParser._parse_date (itau.py:103-108): the token
is stripped and split on the slash, the first two pieces are read as day
and month by the int constructor, and a date is built from the given
year.  None models the ValueError or IndexError raised on a malformed
token or an impossible date. -/
def parseDate (tok : List Char) (year : Nat) : Option PyDate :=
  match splitOnChar '/' (stripL tok) with
  | p0 :: p1 :: _ =>
    match pyIntOfChars p0, pyIntOfChars p1 with
    | some dd, some mm => mkDate year mm.toNat dd.toNat
    | _, _ => none
  | _ => none

/-- The statement-year selection expression shared by the two transaction
passes (itau.py:158 and itau.py:350): the year of the statement date when
one was extracted, and the literal 2025 otherwise. -/
def statementYearOf (sd : Option PyDate) : Nat :=
  match sd with
  | some d => d.year
  | none => 2025

/-- Anchored match of DATE_PATTERN (itau.py:40): two digits, a slash, two
digits, then at least one whitespace character at the start of the line.
Returns the captured token and the remainder after the greedy whitespace
run. -/
def dateTokMatch : List Char → Option (List Char × List Char)
  | d1 :: d2 :: s :: m1 :: m2 :: w :: r =>
    if isDig d1 && isDig d2 && s == '/' && isDig m1 && isDig m2 && isWS w then
      some ([d1, d2, s, m1, m2], (w :: r).dropWhile isWS)
    else none
  | _ => none

/-- Tail of AMOUNT_PATTERN after the leading digit group: any number of
thousands groups (a period or space followed by three digits) and then a
comma with exactly two digits, ending the string.  The disjunction over
group counts reproduces the backtracking search of the re module. -/
def amtTail : List Char → Bool
  | [',', a, b] => isDig a && isDig b
  | c :: a :: b :: d :: rest =>
    (c == '.' || c == ' ') && isDig a && isDig b && isDig d && amtTail rest
  | _ => false

/-- Does AMOUNT_PATTERN (itau.py:41) match this whole list: an optional
minus with an optional whitespace run, one to three digits, then the
thousands-and-cents tail anchored at the end. -/
def amtCore (m : List Char) : Bool :=
  let n := (m.takeWhile isDig).length
  (n == 1 || n == 2 || n == 3) && amtTail (m.drop n)

/-- See amtCore; the optional leading minus of AMOUNT_PATTERN. -/
def amtAt : List Char → Bool
  | '-' :: t => amtCore (t.dropWhile isWS)
  | l => amtCore l

/-- Search of AMOUNT_PATTERN over a line: the re module tries start
positions from the left and keeps the first one from which the pattern
matches through to the end.  Returns the prefix before the match and the
matched token. -/
def amtSearch : List Char → Option (List Char × List Char)
  | [] => none
  | c :: t =>
    if amtAt (c :: t) then some ([], c :: t)
    else (amtSearch t).map (fun p => (c :: p.1, p.2))

/-- Anchored attempt of INSTALLMENT_PATTERN (itau.py:43) at one start
position: two digits, a slash, two digits, at least one whitespace
character, then an amount token reaching the end.  Returns the current
and total captures (as the int constructor reads them) and the amount
token. -/
def instAt : List Char → Option (Nat × Nat × List Char)
  | a :: b :: s :: c :: d :: w :: r =>
    if isDig a && isDig b && s == '/' && isDig c && isDig d && isWS w then
      let amt := (w :: r).dropWhile isWS
      if amtAt amt then
        some (10 * digVal a + digVal b, 10 * digVal c + digVal d, amt)
      else none
    else none
  | _ => none

/-- Search of INSTALLMENT_PATTERN over a line, leftmost start position
first; returns the prefix before the match and the captures. -/
def instSearch : List Char → Option (List Char × Nat × Nat × List Char)
  | [] => none
  | ch :: t =>
    match instAt (ch :: t) with
    | some r => some ([], r)
    | none => (instSearch t).map (fun p => (ch :: p.1, p.2))

/-- Search of CARD_FINAL_PATTERN (itau.py:44) at one start position: the
word final, an optional whitespace run, then four digits (the capture). -/
def cardFinalAt : List Char → Option (List Char)
  | 'f' :: 'i' :: 'n' :: 'a' :: 'l' :: rest =>
    match rest.dropWhile isWS with
    | a :: b :: c :: d :: _ =>
      if isDig a && isDig b && isDig c && isDig d then some [a, b, c, d] else none
    | _ => none
  | _ => none

/-- Search of CARD_FINAL_PATTERN over a line, leftmost occurrence. -/
def cardFinalSearch : List Char → Option (List Char)
  | [] => none
  | c :: t =>
    match cardFinalAt (c :: t) with
    | some g => some g
    | none => cardFinalSearch t

/-- Uppercase class of CATEGORY_LOCATION_PATTERN (itau.py:42): the ASCII
uppercase range plus the listed accented uppercase letters. -/
def isCatUpper (c : Char) : Bool :=
  ('A' ≤ c && c ≤ 'Z') || c == 'Ç' || c == 'Ã' || c == 'Õ' || c == 'É' || c == 'Ê'
    || c == 'Í' || c == 'Ó' || c == 'Ú' || c == 'À' || c == 'Â' || c == 'Ô' || c == 'Ü'

/-- Location class of CATEGORY_LOCATION_PATTERN: ASCII letters of both
cases, the space, and the listed accented lowercase letters. -/
def isCatLoc (c : Char) : Bool :=
  ('A' ≤ c && c ≤ 'Z') || ('a' ≤ c && c ≤ 'z') || c == ' ' || c == 'ç' || c == 'ã'
    || c == 'õ' || c == 'é' || c == 'ê' || c == 'í' || c == 'ó' || c == 'ú'
    || c == 'à' || c == 'â' || c == 'ô' || c == 'ü'

/-- Final part of CATEGORY_LOCATION_PATTERN after the period: a greedy
whitespace run then the location capture filling the rest of the line.
The counter walks the backtracking of the whitespace run from longest to
shortest, as the re module does. -/
def catLocTry (r : List Char) : Nat → Option (List Char)
  | 0 => if r ≠ [] && r.all isCatLoc then some r else none
  | k + 1 =>
    let g := r.drop (k + 1)
    if g ≠ [] && g.all isCatLoc then some g else catLocTry r k

/-- Separator part of CATEGORY_LOCATION_PATTERN: an optional whitespace
run, a literal period, then the location part. -/
def catSep (rem : List Char) : Option (List Char) :=
  match rem.dropWhile isWS with
  | '.' :: r2 => catLocTry r2 (r2.takeWhile isWS).length
  | _ => none

/-- Lazy extension of the category capture: the shortest prefix of
characters of the uppercase-or-space class after which the separator and
location match, as the non-greedy star of the pattern demands. -/
def catRest (g1rev : List Char) : List Char → Option (List Char × List Char)
  | [] =>
    match catSep [] with
    | some g2 => some (g1rev.reverse, g2)
    | none => none
  | c :: t =>
    match catSep (c :: t) with
    | some g2 => some (g1rev.reverse, g2)
    | none => if isCatUpper c || c == ' ' then catRest (c :: g1rev) t else none

/-- Anchored match of the whole CATEGORY_LOCATION_PATTERN against a line:
a leading uppercase-class character, the lazy category extension, the
separator, and the location capture.  Returns the two captures. -/
def categoryLocMatch : List Char → Option (List Char × List Char)
  | c0 :: rest => if isCatUpper c0 then catRest [c0] rest else none
  | [] => none

/-- Embedding of the TransactionType enumeration (core.py:26-29). -/
inductive TransactionType where
  | A_VISTA
  | PARCELADA
  deriving DecidableEq

/-- Embedding of the PaymentMethod enumeration (core.py:32-39). -/
inductive PaymentMethod where
  | CHIP
  | CONTACTLESS
  | APPLE_PAY
  | GOOGLE_PAY
  | ONLINE
  | UNKNOWN
  deriving DecidableEq

/-- Embedding of the Installment dataclass (core.py:42-46). -/
structure Installment where
  current : Nat
  total : Nat
  deriving DecidableEq

/-- Embedding of the Card dataclass (core.py:49-70). -/
structure Card where
  holder_name : String
  last_digits : String
  deriving DecidableEq

/-- Embedding of Card.short_name: the first three letters of the holder
name in uppercase (the empty holder name yields the empty string through
the same slicing). -/
def Card.short_name (c : Card) : String :=
  String.mk ((c.holder_name.data.take 3).map upChar)

/-- Embedding of Card.display_id. -/
def Card.display_id (c : Card) : String :=
  c.short_name ++ "*" ++ c.last_digits

/-- Embedding of the InternationalInfo dataclass (core.py:73-79). -/
structure InternationalInfo where
  original_amount : Dec
  original_currency : String
  exchange_rate : Dec
  city : Option String := none
  deriving DecidableEq

/-- Embedding of the Transaction dataclass (core.py:82-95).  These are
exactly the init fields of the dataclass; card_last_digits is a
read-only property (core.py:97-101), not a field. -/
structure Transaction where
  date : PyDate
  description : String
  amount_brl : Dec
  category : Option String := none
  location : Option String := none
  card : Option Card := none
  transaction_type : TransactionType := .A_VISTA
  installment : Option Installment := none
  international : Option InternationalInfo := none
  payment_method : PaymentMethod := .UNKNOWN
  exported_at : Option PyDateTime := none
  deriving DecidableEq

/-- The keyword parameters accepted by the generated init method of the
Transaction dataclass: exactly its fields. -/
def Transaction.initKeywords : List String :=
  ["date", "description", "amount_brl", "category", "location", "card",
   "transaction_type", "installment", "international", "payment_method",
   "exported_at"]

/-- Python semantics of a call with keyword arguments: when a keyword is
not among the accepted parameters the call raises TypeError before the
body runs. -/
def callRaisesTypeError (kwargs : List String) : Bool :=
  kwargs.any (fun k => !(Transaction.initKeywords.contains k))

/-- Keywords of the Transaction call in the installment branch of
_parse_column_text (itau.py:272-279). -/
def installmentCallKeywords : List String :=
  ["date", "description", "amount_brl", "card_last_digits",
   "transaction_type", "installment"]

/-- Keywords of the Transaction call in the plain branch of
_parse_column_text (itau.py:318-324). -/
def plainCallKeywords : List String :=
  ["date", "description", "amount_brl", "card_last_digits",
   "transaction_type"]

/-- Keywords of the Transaction call in _finalize_intl_transaction
(itau.py:478-487). -/
def intlCallKeywords : List String :=
  ["date", "description", "amount_brl", "card_last_digits",
   "transaction_type", "international", "payment_method"]

/-- Embedding of the Fatura dataclass (core.py:141-155). -/
structure Fatura where
  transactions : List Transaction := []
  cards : List (String × Card) := []
  source_file : String := ""
  card_issuer : Option String := none
  statement_date : Option PyDate := none
  due_date : Option PyDate := none
  payment_date : Option PyDate := none
  previous_balance : Dec := Dec.zero
  payment_made : Dec := Dec.zero
  current_charges : Dec := Dec.zero
  total_amount : Dec := Dec.zero
  iof_international : Dec := Dec.zero
  deriving DecidableEq

/-- Embedding of Fatura.calculated_total: the exact sum of the
transaction amounts, folded left as the generator sum does. -/
def Fatura.calculated_total (f : Fatura) : Dec :=
  f.transactions.foldl (fun acc tx => acc.add tx.amount_brl) Dec.zero

/-- One row of the YNAB export (the fixed header order of
YNABExporter.YNAB_HEADERS). -/
structure YRow where
  rowDate : String
  payee : String
  memo : String
  outflow : String
  inflow : String
  deriving DecidableEq

/-- Embedding of YNABExporter._first_of_month (core.py:291-293). -/
def firstOfMonth (d : PyDate) : PyDate := ⟨d.year, d.month, 1⟩

/-- Join of memo fragments as the separator join of _build_memo does. -/
def joinSemi : List String → String
  | [] => ""
  | [p] => p
  | p :: ps => p ++ "; " ++ joinSemi (ps)

/-- Embedding of YNABExporter._build_memo (core.py:295-333): the ordered,
optional memo fragments joined by a semicolon and a space. -/
def buildMemo (tx : Transaction) (original_date : Option PyDate)
    (exported_at : Option PyDateTime) : String :=
  let cardPart : List String :=
    match tx.card with
    | some c => ["card:" ++ c.display_id]
    | none => []
  let origPart : List String :=
    match original_date with
    | some d => ["orig:" ++ fmtDDMMYYYY d]
    | none => []
  let instPart : List String :=
    match tx.installment with
    | some i => ["parcela:" ++ natStr i.current ++ "/" ++ natStr i.total]
    | none => []
  let intlPart : List String :=
    match tx.international with
    | some i =>
      ("intl:" ++ decStr i.original_amount ++ i.original_currency ++ "@"
          ++ decStr i.exchange_rate) ::
        (match i.city with
         | some city => ["city:" ++ city]
         | none => [])
    | none => []
  let locPart : List String :=
    match tx.location with
    | some l => ["loc:" ++ l]
    | none => []
  let catPart : List String :=
    match tx.category with
    | some c => ["cat:" ++ c]
    | none => []
  let expPart : List String :=
    match exported_at with
    | some t => ["exp:" ++ fmtExpStamp t]
    | none => []
  joinSemi (cardPart ++ origPart ++ instPart ++ intlPart ++ locPart ++ catPart ++ expPart)

/-- The per-transaction row built by the loop of YNABExporter.export
(core.py:357-378): installment transactions are re-dated to the
effective date and keep their purchase date for the memo. -/
def ynabTxRow (effective : PyDate) (exported_at : PyDateTime) (tx : Transaction) : YRow :=
  let dates : PyDate × Option PyDate :=
    if tx.transaction_type = .PARCELADA then (effective, some tx.date)
    else (tx.date, none)
  { rowDate := fmtDDMMYYYY dates.1
    payee := tx.description
    memo := buildMemo tx dates.2 (some exported_at)
    outflow := if tx.amount_brl.isPos then formatAmount tx.amount_brl else ""
    inflow := if tx.amount_brl.isNeg then formatAmount tx.amount_brl else "" }

/-- Embedding of YNABExporter.export (core.py:339-412) as a pure
function of the statement, the export wall-clock instant and the current
date (the call to datetime.now and the date.today fallback are the only
ambient inputs of the method; writing the rows to the sink is the only
side effect and is not modelled).  Returns the rows in emission order
and the returned checksum. -/
def ynabExport (f : Fatura) (now : PyDateTime) (today : PyDate) : List YRow × Dec :=
  let effective : PyDate :=
    match f.statement_date with
    | some sd => firstOfMonth sd
    | none => ⟨today.year, today.month, 1⟩
  let txRows := f.transactions.map (ynabTxRow effective now)
  let checksum1 := f.transactions.foldl (fun acc tx => acc.add tx.amount_brl) Dec.zero
  let iofRows : List YRow :=
    if f.iof_international.isPos then
      [{ rowDate := fmtDDMMYYYY effective
         payee := "IOF Internacional"
         memo := "iof; exp:" ++ fmtExpStamp now
         outflow := formatAmount f.iof_international
         inflow := "" }]
    else []
  let checksum2 :=
    if f.iof_international.isPos then checksum1.add f.iof_international else checksum1
  let payRows : List YRow :=
    match f.payment_date with
    | some pd =>
      if f.payment_made.isPos then
        [{ rowDate := fmtDDMMYYYY pd
           payee := "Pagamento Fatura Anterior"
           memo := "payment; exp:" ++ fmtExpStamp now
           outflow := ""
           inflow := formatAmount f.payment_made }]
      else []
    | none => []
  (txRows ++ iofRows ++ payRows, checksum2)

/-- The mutable state dictionary threaded through the column passes
(itau.py:73-77): the last seen card digits and the two section flags. -/
structure ColState where
  current_card : Option String := none
  in_future_section : Bool := false
  in_intl_section : Bool := false
  deriving DecidableEq

/-- Observable outcome of processing one line of a column: the
transactions appended by that line, the state dictionary after it, and
whether an uncaught exception aborted the column walk there. -/
structure StepOut where
  appended : List Transaction
  state : ColState
  aborted : Bool
  deriving DecidableEq

/-- Future-installments banner condition (itau.py:199). -/
def futureBanner (line : List Char) : Bool :=
  hasStr (line.map lowChar) "próximas faturas" || hasStr line "Compras parceladas"

/-- International-section banner condition (itau.py:205). -/
def intlBanner (line : List Char) : Bool :=
  hasStr line "Lançamentos internacionais"

/-- Card-header banner condition (itau.py:211). -/
def cardHeaderLine (line : List Char) : Bool :=
  hasStr (line.map upChar) "RAFAEL" && hasStr (line.map lowChar) "final"

/-- Regular-section header condition (itau.py:221), the purchases and
withdrawals banner. -/
def purchasesHeader (line : List Char) : Bool :=
  hasStr line "Lançamentos" && hasStr line "compras" && hasStr line "saques"

/-- The fixed noise vocabulary skipped by the column walk
(itau.py:232-239). -/
def skipVocab : List String :=
  ["DATA", "ESTABELECIMENTO", "VALOR EM R$", "VALOR EM R $",
   "Continua", "Previsão", "Consulte",
   "30033030", "08007203030", "PC-",
   "Caso", "pagamento", "parcelamento",
   "crédito", "rotativo", "Demais faturas",
   "Próxima fatura", "Total para próximas"]

/-- Noise-vocabulary condition (itau.py:232). -/
def vocabSkip (line : List Char) : Bool :=
  skipVocab.any (fun s => hasStr line s)

/-- Card-subtotal skip condition (itau.py:244). -/
def cartaoSkip (line : List Char) : Bool :=
  hasStr line "Lançamentos no cartão"

/-- Total-line skip condition (itau.py:249). -/
def totalSkip (line : List Char) : Bool :=
  beginsWith line "Total".data || hasStr line "LTotal"

/-- Embedding of one iteration of the line loop of
ItauPDFParser._parse_column_text (itau.py:188-346).  The branches appear
in source order.  In both transaction branches the code reaches a
Transaction call that passes the keyword card_last_digits, which is not
an init field of the dataclass, so the call raises TypeError; the
handler catches only ValueError and IndexError, hence the iteration
aborts the walk with nothing appended.  The category lookahead and the
append that follow the call in the source are unreachable and therefore
absent here. -/
def stepLine (year : Nat) (st : ColState) (raw : List Char) : StepOut :=
  let line := stripL raw
  if line.isEmpty then ⟨[], st, false⟩
  else if futureBanner line then ⟨[], { st with in_future_section := true }, false⟩
  else if intlBanner line then ⟨[], { st with in_intl_section := true }, false⟩
  else if cardHeaderLine line then
    match cardFinalSearch line with
    | some g =>
      ⟨[], { st with current_card := some (String.mk g), in_future_section := false }, false⟩
    | none => ⟨[], st, false⟩
  else if purchasesHeader line then ⟨[], { st with in_intl_section := false }, false⟩
  else if st.in_future_section || st.in_intl_section then ⟨[], st, false⟩
  else if vocabSkip line then ⟨[], st, false⟩
  else if cartaoSkip line then ⟨[], st, false⟩
  else if totalSkip line then ⟨[], st, false⟩
  else
    match dateTokMatch line with
    | none => ⟨[], st, false⟩
    | some (dTok, rest0) =>
      let rest := stripL rest0
      match instSearch rest with
      | some _ =>
        -- installment branch (itau.py:264-303): parse the date inside
        -- the try block, then call Transaction with the keyword
        -- card_last_digits
        (match parseDate dTok year with
         | none => ⟨[], st, false⟩
         | some _ =>
           if callRaisesTypeError installmentCallKeywords then ⟨[], st, true⟩
           else ⟨[], st, false⟩)
      | none =>
        match amtSearch rest with
        | none => ⟨[], st, false⟩
        | some (before, _) =>
          let desc := stripL before
          -- discard of empty or one-character descriptions (itau.py:312)
          if desc.length < 2 then ⟨[], st, false⟩
          else
            (match parseDate dTok year with
             | none => ⟨[], st, false⟩
             | some _ =>
               if callRaisesTypeError plainCallKeywords then ⟨[], st, true⟩
               else ⟨[], st, false⟩)

/-- Outcome of walking the lines of one column: the transactions
appended, the final state dictionary, and whether an uncaught exception
ended the walk early (the caller _parse_page_columns swallows it,
keeping the state mutations made so far and dropping the remaining
lines of the column). -/
structure ColOut where
  txs : List Transaction
  state : ColState
  aborted : Bool
  deriving DecidableEq

/-- Embedding of the line loop of _parse_column_text over a list of
lines. -/
def parseColumnLines (year : Nat) (st : ColState) : List (List Char) → ColOut
  | [] => ⟨[], st, false⟩
  | l :: rest =>
    let s := stepLine year st l
    if s.aborted then ⟨s.appended, s.state, true⟩
    else
      let r := parseColumnLines year s.state rest
      ⟨s.appended ++ r.txs, r.state, r.aborted⟩

/-- Embedding of _parse_column_text on the raw text of a column: the
text is split on newlines and walked line by line. -/
def parseColumnText (year : Nat) (st : ColState) (text : String) : ColOut :=
  parseColumnLines year st (splitOnChar '\n' text.data)

/-- The pending-transaction dictionary accumulated by the international
pass (itau.py:450-455 and 461-465). -/
structure IntlPending where
  date : PyDate
  description : String
  amount_brl : Dec
  card : Option String := none
  city : Option String := none
  orig_amount : Option Dec := none
  currency : Option String := none
  exchange_rate : Option Dec := none
  deriving DecidableEq

/-- Outcome of a Python call that either returns or raises TypeError. -/
inductive PyOutcome (α : Type) where
  | ok : α → PyOutcome α
  | typeError : PyOutcome α
  deriving DecidableEq

/-- Embedding of ItauPDFParser._finalize_intl_transaction
(itau.py:467-488) acting on the transaction list of the statement.  The
InternationalInfo value is assembled first (side-effect free), then the
Transaction call passes the keyword card_last_digits, which is not an
init field of the dataclass, so the call raises TypeError before any
append; nothing in the international pass catches it, so the whole
parse aborts there.  The guarded branch below is unreachable because
the keyword check is decided by the two keyword lists; no faithful
completion of it exists, since the dataclass rejects the keyword. -/
def finalizeIntlTransaction (data : IntlPending) (txs : List Transaction) :
    PyOutcome (List Transaction) :=
  let _intl_info : Option InternationalInfo :=
    match data.orig_amount, data.currency with
    | some oa, some cur =>
      some { original_amount := oa
             original_currency := cur
             exchange_rate := (data.exchange_rate).getD Dec.zero
             city := data.city }
    | _, _ => none
  if callRaisesTypeError intlCallKeywords then .typeError
  else .ok txs

/-- Substring containment of strings, used to state the memo clauses. -/
def strContains (hay needle : String) : Prop :=
  ∃ pre post : String, hay = pre ++ needle ++ post

/-- One predicate packaging the branches of _parse_column_text that are
examined before the transaction-candidate shape (itau.py:194-251): the
empty line, the four banners, the two section flags, and the three
noise-skip conditions. -/
def isHandledBefore (st : ColState) (line : List Char) : Bool :=
  line.isEmpty || futureBanner line || intlBanner line || cardHeaderLine line
    || purchasesHeader line || st.in_future_section || st.in_intl_section
    || vocabSkip line || cartaoSkip line || totalSkip line

/-- Exact addition of Dec values is addition of the rationals they
denote. -/
theorem Dec.toRat_add (a b : Dec) : (a.add b).toRat = a.toRat + b.toRat := by
  have h10 : (10 : ℚ) ≠ 0 := by norm_num
  have hA : 0 ≤ max a.scale b.scale - a.scale := by omega
  have hB : 0 ≤ max a.scale b.scale - b.scale := by omega
  unfold Dec.add Dec.toRat
  push_cast
  rw [← zpow_natCast (10 : ℚ) (max a.scale b.scale - a.scale).toNat,
    ← zpow_natCast (10 : ℚ) (max a.scale b.scale - b.scale).toNat,
    Int.toNat_of_nonneg hA, Int.toNat_of_nonneg hB, add_mul, mul_assoc, mul_assoc,
    ← zpow_add₀ h10, ← zpow_add₀ h10]
  congr 2 <;> ring_nf

/-- The checksum accumulation loop denotes the rational sum of the
amounts. -/
theorem foldl_add_amount_toRat (l : List Transaction) (z : Dec) :
    (l.foldl (fun acc tx => acc.add tx.amount_brl) z).toRat
      = z.toRat + (l.map (fun tx => tx.amount_brl.toRat)).sum := by
  induction l generalizing z with
  | nil => simp [Dec.toRat]
  | cons tx t ih =>
    simp only [List.foldl_cons, List.map_cons, List.sum_cons, ih, Dec.toRat_add]
    ring

/-- A fragment of the joined memo is a substring of it. -/
theorem joinSemi_contains (l1 l2 : List String) (p : String) :
    strContains (joinSemi (l1 ++ p :: l2)) p := by
  induction l1 with
  | nil =>
    cases l2 with
    | nil =>
      refine ⟨"", "", ?_⟩
      simp [joinSemi, String.empty_append, String.append_empty]
    | cons x xs =>
      refine ⟨"", "; " ++ joinSemi (x :: xs), ?_⟩
      simp only [List.nil_append, joinSemi, String.empty_append]
      rw [String.append_assoc]
  | cons x t ih =>
    obtain ⟨pre, post, hpp⟩ := ih
    have hne : t ++ p :: l2 ≠ [] := by simp
    refine ⟨x ++ "; " ++ pre, post, ?_⟩
    have hj : joinSemi (x :: (t ++ p :: l2)) = x ++ "; " ++ joinSemi (t ++ p :: l2) := by
      cases h : t ++ p :: l2 with
      | nil => exact absurd h hne
      | cons y ys => simp [joinSemi]
    simp only [List.cons_append, hj, hpp, String.append_assoc]

/-- The year of a validated date is the year it was built from. -/
theorem mkDate_year (y m dd : Nat) (p : PyDate) (h : mkDate y m dd = some p) :
    p.year = y := by
  unfold mkDate at h
  split at h
  · cases h; rfl
  · cases h

/-- A line recognized as a card header is not empty. -/
theorem cardHeaderLine_ne_empty (l : List Char) (h : cardHeaderLine l = true) :
    l.isEmpty = false := by
  cases l with
  | nil => simp [cardHeaderLine, hasStr, hasSub, beginsWith] at h
  | cons c t => rfl

/-- Claim C1: for every statement, the checksum returned by
YNABExporter.export equals the sum of the amounts of all transactions,
plus iof_international when it is positive; and the synthetic payment
row contributes nothing, since replacing the payment fields leaves the
returned checksum unchanged. -/
theorem export_checksum_reconciles (f : Fatura) (now : PyDateTime) (today : PyDate) :
    ((ynabExport f now today).2.toRat
        = (f.transactions.map (fun tx => tx.amount_brl.toRat)).sum
          + (if f.iof_international.isPos then f.iof_international.toRat else 0))
    ∧ (∀ (pm : Dec) (pd : Option PyDate),
        (ynabExport { f with payment_made := pm, payment_date := pd } now today).2
          = (ynabExport f now today).2) := by
  constructor
  · simp only [ynabExport]
    by_cases h : f.iof_international.isPos = true
    · rw [if_pos h, if_pos h, Dec.toRat_add, foldl_add_amount_toRat]
      simp [Dec.toRat, Dec.zero]
    · rw [if_neg h, if_neg h, foldl_add_amount_toRat]
      simp [Dec.toRat, Dec.zero]
  · intro pm pd
    rfl

/-- Claim C4 (evidence of the code defect): _finalize_intl_transaction
always raises TypeError, because its Transaction call passes the keyword
card_last_digits, which the dataclass init does not accept; hence the
international pass never appends any transaction and the parse aborts. -/
theorem finalize_intl_always_raises (data : IntlPending) (txs : List Transaction) :
    finalizeIntlTransaction data txs = PyOutcome.typeError := by
  have h : callRaisesTypeError intlCallKeywords = true := by decide
  unfold finalizeIntlTransaction
  simp [h]

/-- Claim C10: when the statement date is absent, the year selection
expression shared by both transaction passes yields the literal 2025,
and every partial date token parsed with it carries the year 2025. -/
theorem missing_statement_date_year_2025 :
    statementYearOf none = 2025
    ∧ (∀ (tok : List Char) (d : PyDate),
        parseDate tok (statementYearOf none) = some d → d.year = 2025) := by
  refine ⟨rfl, ?_⟩
  intro tok d h
  unfold parseDate at h
  split at h
  · split at h
    · exact mkDate_year _ _ _ _ h
    · cases h
  · cases h

/-- Witness for claim C10 at the token 16/10. -/
theorem missing_statement_date_year_2025_witness :
    parseDate ("16/10").data (statementYearOf none) = some ⟨2025, 10, 16⟩
    ∧ (⟨2025, 10, 16⟩ : PyDate).year = 2025 :=
  ⟨by decide, missing_statement_date_year_2025.2 ("16/10").data ⟨2025, 10, 16⟩ (by decide)⟩

/-- Claim C7: amount normalization turns 1.234,56 into 1234.56, the
credit form - 80,00 into -80, and 0,20 into 0.20, and any token whose
cleaned form the Decimal grammar rejects yields exactly zero instead of
an error. -/
theorem brl_amount_normalization :
    parseBrlAmount "1.234,56" = .fin ⟨123456, 2⟩
    ∧ Dec.toRat ⟨123456, 2⟩ = 1234.56
    ∧ parseBrlAmount "- 80,00" = .fin ⟨-8000, 2⟩
    ∧ Dec.toRat ⟨-8000, 2⟩ = -80
    ∧ parseBrlAmount "0,20" = .fin ⟨20, 2⟩
    ∧ Dec.toRat ⟨20, 2⟩ = 0.20
    ∧ (∀ s : String, pyDecimalOfChars (cleanAmount s) = none
        → parseBrlAmount s = .fin Dec.zero) := by
  refine ⟨by decide, by norm_num [Dec.toRat], by decide, by norm_num [Dec.toRat],
    by decide, by norm_num [Dec.toRat], ?_⟩
  intro s h
  unfold parseBrlAmount
  rw [h]

/-- Witness for the malformed-token clause of claim C7. -/
theorem brl_amount_normalization_witness :
    pyDecimalOfChars (cleanAmount "R$ abc") = none
    ∧ parseBrlAmount "R$ abc" = .fin Dec.zero :=
  ⟨by decide, brl_amount_normalization.2.2.2.2.2.2 "R$ abc" (by decide)⟩

/-- Claim C2 (evidence of the code defect): a line with an impossible
date token is indeed recovered by skipping just that line (first
conjunct: no abort, nothing appended, state untouched); but the next
well-formed transaction line raises TypeError at the Transaction call,
aborting the column walk, so the following international banner is never
processed (second conjunct: the walk ends aborted with the section flag
still clear and nothing appended). -/
theorem malformed_date_recovery_but_column_aborts :
    parseColumnLines 2025 {} [("31/02 LOJA QUALQUER 10,00").data]
        = ⟨[], {}, false⟩
    ∧ parseColumnLines 2025 {}
        [("31/02 LOJA QUALQUER 10,00").data, ("16/10 LOJA BOA 20,00").data,
          ("Lançamentos internacionais").data]
        = ⟨[], {}, true⟩ :=
  ⟨rfl, rfl⟩

/-- Claim C5 (evidence of the code defect): the documented example line
followed by its category line appends no transaction at all; the walk
aborts at the Transaction call of the plain branch with TypeError, so
the category line is never examined. -/
theorem category_example_line_aborts_column :
    parseColumnLines 2025 {}
        [("16/10 REDENTOR QUIOSQUE PARK 125,95").data,
          ("ALIMENTAÇÃO . Belo Horizont").data]
      = ⟨[], {}, true⟩ :=
  rfl

/-- Claim C8 (evidence of the code defect): an installment line that the
tests expect to yield an installment transaction with current 8 of 10
appends nothing; the walk aborts at the Transaction call of the
installment branch with TypeError, so the parser never produces any
installment transaction at all. -/
theorem installment_line_aborts_column :
    parseColumnLines 2025 {} [("26/03 AUTO JAPAN 08/10 342,61").data]
      = ⟨[], {}, true⟩ :=
  rfl

/-- Variant of joinSemi_contains for the second fragment after a known
head fragment. -/
theorem joinSemi_contains2 (l1 : List String) (x : String) (l2 : List String) (p : String) :
    strContains (joinSemi (l1 ++ x :: p :: l2)) p := by
  have h := joinSemi_contains (l1 ++ [x]) l2 p
  simpa [List.append_assoc] using h

/-- Claim C3: an installment transaction bought on 2025-03-26 at
position 8 of 10, exported from a statement dated in November 2025, is
rendered at the effective date 01/11/2025 (first day of the billing
month) with a memo containing the original-date fragment and the
installment fragment. -/
theorem installment_row_date_and_memo
    (f : Fatura) (now : PyDateTime) (today : PyDate) (tx : Transaction) (d : Nat)
    (hsd : f.statement_date = some ⟨2025, 11, d⟩)
    (htx : tx ∈ f.transactions)
    (hty : tx.transaction_type = .PARCELADA)
    (hdate : tx.date = ⟨2025, 3, 26⟩)
    (hinst : tx.installment = some ⟨8, 10⟩) :
    ∃ row ∈ (ynabExport f now today).1,
      row.rowDate = "01/11/2025"
      ∧ strContains row.memo "orig:26/03/2025"
      ∧ strContains row.memo "parcela:8/10" := by
  have horig : "orig:" ++ fmtDDMMYYYY ⟨2025, 3, 26⟩ = "orig:26/03/2025" := rfl
  have hparc : "parcela:" ++ natStr 8 ++ "/" ++ natStr 10 = "parcela:8/10" := rfl
  refine ⟨ynabTxRow ⟨2025, 11, 1⟩ now tx, ?_, ?_, ?_, ?_⟩
  · simp only [ynabExport, hsd, firstOfMonth]
    exact List.mem_append_left _ (List.mem_append_left _ (List.mem_map_of_mem _ htx))
  · simp only [ynabTxRow, hty, if_pos]
    rfl
  · simp only [ynabTxRow, hty, if_pos, buildMemo, hdate, hinst, horig, hparc,
      List.append_assoc, List.singleton_append]
    exact joinSemi_contains _ _ _
  · simp only [ynabTxRow, hty, if_pos, buildMemo, hdate, hinst, horig, hparc,
      List.append_assoc, List.singleton_append]
    exact joinSemi_contains2 _ _ _ _

/-- Witness for claim C3 at a concrete one-transaction statement. -/
theorem installment_row_date_and_memo_witness :
    ∃ row ∈ (ynabExport
        { transactions := [{ date := ⟨2025, 3, 26⟩
                             description := "AUTO JAPAN"
                             amount_brl := ⟨34261, 2⟩
                             transaction_type := .PARCELADA
                             installment := some ⟨8, 10⟩ }]
          statement_date := some ⟨2025, 11, 6⟩ }
        ⟨⟨2025, 12, 1⟩, 9, 30⟩ ⟨2025, 12, 1⟩).1,
      row.rowDate = "01/11/2025"
      ∧ strContains row.memo "orig:26/03/2025"
      ∧ strContains row.memo "parcela:8/10" :=
  installment_row_date_and_memo _ _ _ _ 6 rfl (List.Mem.head _) rfl rfl rfl

/-- No iteration of the column walk ever appends a transaction: every
skip arm appends nothing and both transaction arms abort at the
Transaction call before the append. -/
theorem stepLine_appended_nil (year : Nat) (st : ColState) (raw : List Char) :
    (stepLine year st raw).appended = [] := by
  simp only [stepLine]
  by_cases h1 : (stripL raw).isEmpty
  · simp [h1]
  by_cases h2 : futureBanner (stripL raw)
  · simp [h1, h2]
  by_cases h3 : intlBanner (stripL raw)
  · simp [h1, h2, h3]
  by_cases h4 : cardHeaderLine (stripL raw)
  · cases hcf : cardFinalSearch (stripL raw) <;> simp [h1, h2, h3, h4, hcf]
  by_cases h5 : purchasesHeader (stripL raw)
  · simp [h1, h2, h3, h4, h5]
  by_cases h6 : (st.in_future_section || st.in_intl_section) = true
  · simp [h1, h2, h3, h4, h5, h6]
  by_cases h7 : vocabSkip (stripL raw)
  · simp [h1, h2, h3, h4, h5, h6, h7]
  by_cases h8 : cartaoSkip (stripL raw)
  · simp [h1, h2, h3, h4, h5, h6, h7, h8]
  by_cases h9 : totalSkip (stripL raw)
  · simp [h1, h2, h3, h4, h5, h6, h7, h8, h9]
  simp only [h1, h2, h3, h4, h5, h6, h7, h8, h9, Bool.false_eq_true, if_false,
    reduceIte]
  cases hd : dateTokMatch (stripL raw) with
  | none => simp [hd, h6, h7, h8, h9]
  | some p =>
    obtain ⟨dTok, rest0⟩ := p
    simp only [hd, h6, h7, h8, h9]
    cases hi : instSearch (stripL rest0) with
    | some r =>
      simp only [hi]
      cases hpd : parseDate dTok year with
      | none => simp [hd, hi, hpd]
      | some q => simp only [hd, hi, hpd]; split <;> rfl
    | none =>
      simp only [hi]
      cases ha : amtSearch (stripL rest0) with
      | none => simp [hd, hi, ha]
      | some q =>
        obtain ⟨before, tok⟩ := q
        simp only [ha]
        by_cases hlen : (stripL before).length < 2
        · simp [hd, hi, ha, hlen]
        · simp only [hd, hi, ha, hlen, if_false]
          cases hpd : parseDate dTok year with
          | none => simp [hpd]
          | some q2 => simp only [hpd]; split <;> rfl

/-- While one of the section flags is set, the iteration is a clean skip:
it cannot abort. -/
theorem stepLine_insection_no_abort (year : Nat) (st : ColState) (raw : List Char)
    (h : (st.in_future_section || st.in_intl_section) = true) :
    (stepLine year st raw).aborted = false := by
  simp only [stepLine]
  by_cases h1 : (stripL raw).isEmpty
  · simp [h1]
  · by_cases h2 : futureBanner (stripL raw)
    · simp [h1, h2]
    · by_cases h3 : intlBanner (stripL raw)
      · simp [h1, h2, h3]
      · by_cases h4 : cardHeaderLine (stripL raw)
        · cases hcf : cardFinalSearch (stripL raw) <;> simp [h1, h2, h3, h4, hcf]
        · by_cases h5 : purchasesHeader (stripL raw)
          · simp [h1, h2, h3, h4, h5]
          · simp [h1, h2, h3, h4, h5, h]

/-- Unless the line is the purchases-and-withdrawals header, an
iteration never clears the international flag. -/
theorem stepLine_keeps_intl (year : Nat) (st : ColState) (raw : List Char)
    (hp : purchasesHeader (stripL raw) = false)
    (hst : st.in_intl_section = true) :
    (stepLine year st raw).state.in_intl_section = true := by
  simp only [stepLine]
  by_cases h1 : (stripL raw).isEmpty
  · simp [h1, hst]
  · by_cases h2 : futureBanner (stripL raw)
    · simp [h1, h2, hst]
    · by_cases h3 : intlBanner (stripL raw)
      · simp [h1, h2, h3]
      · by_cases h4 : cardHeaderLine (stripL raw)
        · cases hcf : cardFinalSearch (stripL raw) <;> simp [h1, h2, h3, h4, hcf, hst]
        · simp only [h1, h2, h3, h4, hp, Bool.false_eq_true, if_false]
          simp [hst]

/-- Claim C6: while a section flag is set no line appends a transaction
(and the iteration cannot abort); a recognized card header installs the
card, clears the future flag and leaves the international flag exactly
as it was; and an iteration that clears a set international flag can
only be the purchases-and-withdrawals header. -/
theorem section_tracker_invariants :
    (∀ (year : Nat) (st : ColState) (raw : List Char),
      (st.in_future_section || st.in_intl_section) = true →
        (stepLine year st raw).appended = []
        ∧ (stepLine year st raw).aborted = false)
    ∧ (∀ (year : Nat) (st : ColState) (raw : List Char) (g : List Char),
      futureBanner (stripL raw) = false →
      intlBanner (stripL raw) = false →
      cardHeaderLine (stripL raw) = true →
      cardFinalSearch (stripL raw) = some g →
        stepLine year st raw
          = ⟨[], { current_card := some (String.mk g), in_future_section := false,
                   in_intl_section := st.in_intl_section }, false⟩)
    ∧ (∀ (year : Nat) (st : ColState) (raw : List Char),
      st.in_intl_section = true →
      (stepLine year st raw).state.in_intl_section = false →
        purchasesHeader (stripL raw) = true) := by
  refine ⟨?_, ?_, ?_⟩
  · intro year st raw h
    exact ⟨stepLine_appended_nil year st raw, stepLine_insection_no_abort year st raw h⟩
  · intro year st raw g h2 h3 h4 hcf
    have h1 : (stripL raw).isEmpty = false := cardHeaderLine_ne_empty _ h4
    simp only [stepLine, h1, h2, h3, h4, hcf, Bool.false_eq_true, if_false, if_true]
  · intro year st raw hst hres
    by_contra hp
    have hp2 : purchasesHeader (stripL raw) = false := by
      cases hq : purchasesHeader (stripL raw)
      · rfl
      · exact absurd hq hp
    have := stepLine_keeps_intl year st raw hp2 hst
    rw [hres] at this
    cases this

/-- Witness for claim C6 at a concrete card-header line and a concrete
in-section line. -/
theorem section_tracker_invariants_witness :
    ((stepLine 2025 ⟨none, false, true⟩ ("16/10 LOJA BOA 20,00").data).appended = []
      ∧ (stepLine 2025 ⟨none, false, true⟩ ("16/10 LOJA BOA 20,00").data).aborted = false)
    ∧ stepLine 2025 ⟨none, true, true⟩ ("RAFAEL A S ALMEIDA final 6529").data
        = ⟨[], ⟨some "6529", false, true⟩, false⟩
    ∧ purchasesHeader (stripL ("Lançamentos : compras e saques").data) = true :=
  ⟨section_tracker_invariants.1 2025 ⟨none, false, true⟩ ("16/10 LOJA BOA 20,00").data
      (by decide),
   section_tracker_invariants.2.1 2025 ⟨none, true, true⟩
      ("RAFAEL A S ALMEIDA final 6529").data ("6529").data
      (by decide) (by decide) (by decide) (by decide),
   section_tracker_invariants.2.2 2025
      ⟨none, false, true⟩ ("Lançamentos : compras e saques").data rfl (by decide)⟩

/-- Claim C9: a candidate line (leading date token, trailing amount)
whose description remnant is empty or one character long appends no
transaction.  In the plain form the iteration is the explicit discard:
a clean skip that keeps the state and does not abort; in the installment
form the source has no such check and the iteration reaches the
Transaction call, which raises, so nothing is appended there either. -/
theorem short_remnant_appends_nothing :
    (∀ (year : Nat) (st : ColState) (raw : List Char)
        (dTok rest0 before tok : List Char),
      isHandledBefore st (stripL raw) = false →
      dateTokMatch (stripL raw) = some (dTok, rest0) →
      instSearch (stripL rest0) = none →
      amtSearch (stripL rest0) = some (before, tok) →
      (stripL before).length < 2 →
        stepLine year st raw = ⟨[], st, false⟩)
    ∧ (∀ (year : Nat) (st : ColState) (raw : List Char)
        (dTok rest0 : List Char) (r : List Char × Nat × Nat × List Char),
      dateTokMatch (stripL raw) = some (dTok, rest0) →
      instSearch (stripL rest0) = some r →
      (stripL r.1).length < 2 →
        (stepLine year st raw).appended = []) := by
  constructor
  · intro year st raw dTok rest0 before tok hhb hd hi ha hlen
    simp only [isHandledBefore, Bool.or_eq_false_iff] at hhb
    obtain ⟨⟨⟨⟨⟨⟨⟨⟨⟨h1, h2⟩, h3⟩, h4⟩, h5⟩, h6⟩, h7⟩, h8⟩, h9⟩, h10⟩ := hhb
    simp only [stepLine, h1, h2, h3, h4, h5, h6, h7, h8, h9, h10, Bool.false_eq_true,
      Bool.or_self, if_false, hd, hi, ha, hlen, if_true, reduceIte]
  · intro year st raw dTok rest0 r hd hi hlen
    exact stepLine_appended_nil year st raw

/-- Witness for claim C9 at a one-character plain remnant and an empty
installment remnant. -/
theorem short_remnant_appends_nothing_witness :
    stepLine 2025 ⟨none, false, false⟩ ("16/10 R 125,95").data = ⟨[], ⟨none, false, false⟩, false⟩
    ∧ (stepLine 2025 ⟨none, false, false⟩ ("16/10 08/10 342,61").data).appended = [] :=
  ⟨short_remnant_appends_nothing.1 2025 ⟨none, false, false⟩ ("16/10 R 125,95").data
      ("16/10").data ("R 125,95").data ("R ").data ("125,95").data
      (by decide) (by decide) (by decide) (by decide) (by decide),
   short_remnant_appends_nothing.2 2025 ⟨none, false, false⟩ ("16/10 08/10 342,61").data
      ("16/10").data ("08/10 342,61").data ([], 8, 10, ("342,61").data)
      (by decide) (by decide) (by decide)⟩
